import Mathlib

/-!
Verification of the EZ-Api/exporter record transformation engine.

Shallow embedding of the Go sources:
  * `internal/source/newapi/exporter.go`      (export pass, channel/token/user/ability conversion)
  * `internal/source/newapi/channel_type.go`  (channel type enum mapping)
  * `internal/source/newapi/status.go`        (lifecycle status enum mapping)
  * `internal/source/newapi/models.go`        (source table records, `TimestampToTime`)
  * `internal/schema/intermediate.go`         (target schema, `ExportResult` accumulator)

Modeling conventions: Go strings are `List Char`; Go pointers `*T` are `Option T`;
Go `int`/`int64` are `Int` and `uint` is `Nat` (no arithmetic in the engine can
overflow the machine ranges on the modeled paths); `time.Time` is an `Instant`
carrying epoch seconds; the read-only database connector is a record of
pre-determined fetch outcomes (`Except` values), one per query the engine issues;
the per-channel JSON backup (`json.Marshal`, which cannot fail for these field
types) is modeled by the channel value itself.  The Go exporter mutates a single
`ExportResult` accumulator; here that state is threaded explicitly.
-/

namespace Exporter

/-- Go strings, modeled as lists of characters. -/
abbrev Str := List Char

/-- Embed a Lean string literal into the model string type. -/
def str (s : String) : Str := s.data

/-- Go `unicode.IsSpace`: the Unicode White_Space code points (and therefore
exactly the characters `strings.TrimSpace` trims). -/
def isSpace (c : Char) : Bool :=
  decide (c.toNat = 9 ∨ c.toNat = 10 ∨ c.toNat = 11 ∨ c.toNat = 12 ∨ c.toNat = 13 ∨
    c.toNat = 32 ∨ c.toNat = 0x85 ∨ c.toNat = 0xA0 ∨ c.toNat = 0x1680 ∨
    (0x2000 ≤ c.toNat ∧ c.toNat ≤ 0x200A) ∨ c.toNat = 0x2028 ∨ c.toNat = 0x2029 ∨
    c.toNat = 0x202F ∨ c.toNat = 0x205F ∨ c.toNat = 0x3000)

/-- Go `strings.Split s sep` for a one-character separator `sep`
(all splits in this repository use `"\n"` or `","`).  `Split "" sep = [""]`. -/
def splitOnChar (sep : Char) : Str → List Str
  | [] => [[]]
  | c :: rest =>
    match splitOnChar sep rest with
    | [] => [[]]
    | t :: ts => if c = sep then [] :: t :: ts else (c :: t) :: ts

/-- Go `strings.TrimSpace`: drop White_Space characters from both ends. -/
def trimSpace (s : Str) : Str :=
  ((s.dropWhile (fun c => isSpace c)).reverse.dropWhile (fun c => isSpace c)).reverse

/-- Decimal digits of a natural number (Go `%d` on a non-negative value). -/
def natToStr (n : Nat) : Str := Nat.toDigits 10 n

/-- Go `%d` formatting of a signed integer. -/
def intToStr : Int → Str
  | .ofNat n => natToStr n
  | .negSucc n => '-' :: natToStr (n + 1)

/-- Go `fmt` `%v` rendering of a string slice: `[a b c]`. -/
def fmtStrList (l : List Str) : Str :=
  '[' :: List.intercalate [' '] l ++ [']']

/-- Go `fmt.Errorf("<msg>: %w", err)`: the wrapped error's message. -/
def wrapErr (msg : Str) (e : Str) : Str := msg ++ str ": " ++ e

/-! ### Source records (`internal/source/newapi/models.go`)

Only the columns the export logic reads are modeled; the remaining columns of
each table never influence the engine (they are carried only inside the opaque
JSON backup, which is modeled by the whole channel value). -/

/-- Row of the `channels` table (the fields `exporter.go` reads). -/
structure Channel where
  id : Int
  type : Int
  key : Str
  status : Int
  name : Str
  weight : Option Nat
  baseURL : Option Str
  models : Str
  group : Str
  modelMapping : Option Str
  statusCodeMapping : Option Str
  priority : Option Int
  autoBan : Option Int
  setting : Option Str
  paramOverride : Option Str
  headerOverride : Option Str
  deriving DecidableEq, Repr

/-- Row of the `tokens` table (the fields `exporter.go` reads). -/
structure Token where
  id : Int
  userID : Int
  key : Str
  status : Int
  expiredTime : Int
  remainQuota : Int
  unlimitedQuota : Bool
  modelLimitsEnabled : Bool
  modelLimits : Str
  allowIPs : Option Str
  usedQuota : Int
  group : Str
  deriving DecidableEq, Repr

/-- Row of the `users` table (the fields `exporter.go` reads). -/
structure User where
  id : Int
  username : Str
  status : Int
  email : Str
  group : Str
  deriving DecidableEq, Repr

/-- Row of the `abilities` table (the fields `exporter.go` reads). -/
structure Ability where
  group : Str
  model : Str
  channelID : Int
  enabled : Bool
  deriving DecidableEq, Repr

/-- A `time.Time` instant, identified by its Unix epoch seconds
(`time.Unix ts 0`). -/
structure Instant where
  seconds : Int
  deriving DecidableEq, Repr

/-- `time.Unix ts 0`. -/
def timeUnix (ts : Int) : Instant := ⟨ts⟩

/-- `TimestampToTime` from `models.go`: `nil` for the never-expires sentinels
`-1` and `0`, otherwise the instant at that epoch second. -/
def TimestampToTime (ts : Int) : Option Instant :=
  if ts = -1 ∨ ts = 0 then none else some (timeUnix ts)

/-! ### Target schema (`internal/schema/intermediate.go`) -/

/-- Target `Provider` record. -/
structure Provider where
  originalID : Int
  name : Str
  type : Str
  baseURL : Str
  apiKey : Str
  models : List Str
  primaryGroup : Str
  allGroups : List Str
  weight : Int
  priority : Int
  status : Str
  autoBan : Bool
  isMultiKey : Bool
  multiKeyIndex : Nat
  originalName : Str
  original : Option Channel
  deriving DecidableEq, Repr

/-- Target `Master` record. -/
structure Master where
  name : Str
  group : Str
  namespaces : List Str
  defaultNamespace : Str
  maxChildKeys : Int
  globalQPS : Int
  status : Str
  sourceUserID : Int
  sourceEmail : Str
  deriving DecidableEq, Repr

/-- Target `Key` record. -/
structure Key where
  masterRef : Str
  originalToken : Str
  group : Str
  status : Str
  scopes : List Str
  namespaces : List Str
  modelLimitsEnabled : Bool
  modelLimits : List Str
  expiresAt : Option Instant
  allowIPs : List Str
  quotaLimit : Option Int
  quotaUsed : Option Int
  unlimitedQuota : Bool
  originalID : Int
  tokenPlaintextAvailable : Bool
  deriving DecidableEq, Repr

/-- Target `Binding` record. -/
structure Binding where
  namespace_ : Str
  routeGroup : Str
  model : Str
  status : Str
  deriving DecidableEq, Repr

/-- The `ExportResult` aggregate (`version`, `source.*`, the four collections,
and the ordered warning log). -/
structure ExportResult where
  version : Str
  sourceType : Str
  sourceVersion : Str
  exportedAt : Int
  providers : List Provider
  masters : List Master
  keys : List Key
  bindings : List Binding
  warnings : List Str
  deriving DecidableEq, Repr

/-- `NewExportResult`, with `time.Now()` passed in as `now`. -/
def NewExportResult (now : Int) : ExportResult :=
  { version := str "1.0.0"
    sourceType := str "newapi"
    sourceVersion := str "unknown"
    exportedAt := now
    providers := []
    masters := []
    keys := []
    bindings := []
    warnings := [] }

/-- `AddWarning`. -/
def addWarning (r : ExportResult) (w : Str) : ExportResult :=
  { r with warnings := r.warnings ++ [w] }

/-- `AddProvider`. -/
def addProvider (r : ExportResult) (p : Provider) : ExportResult :=
  { r with providers := r.providers ++ [p] }

/-- `AddMaster`. -/
def addMaster (r : ExportResult) (m : Master) : ExportResult :=
  { r with masters := r.masters ++ [m] }

/-- `AddKey`. -/
def addKey (r : ExportResult) (k : Key) : ExportResult :=
  { r with keys := r.keys ++ [k] }

/-- `AddBinding`. -/
def addBinding (r : ExportResult) (b : Binding) : ExportResult :=
  { r with bindings := r.bindings ++ [b] }

/-- `ExporterConfig`. -/
structure ExporterConfig where
  includeTokens : Bool
  includeAbilities : Bool
  verbose : Bool
  deriving DecidableEq, Repr

/-- `DefaultExporterConfig`. -/
def DefaultExporterConfig : ExporterConfig :=
  { includeTokens := true, includeAbilities := false, verbose := false }

/-- The read-only database connector (`connector.go`), abstracted to the
outcome of each query the engine issues against a fixed source snapshot. -/
structure Connector where
  getAllChannels : Except Str (List Channel)
  getUsersWithTokens : Except Str (List User)
  getTokensByUserID : Int → Except Str (List Token)
  getAllAbilities : Except Str (List Ability)

/-! ### Enum mappers (`channel_type.go`, `status.go`) -/

/-- The fixed `channelTypeMapping` table from `channel_type.go`, as a partial
lookup from the numeric channel kind to the provider type string. -/
def channelTypeMapping : Int → Option Str
  | 0 => some (str "custom")
  | 1 => some (str "openai")
  | 2 => some (str "midjourney")
  | 3 => some (str "azure")
  | 4 => some (str "ollama")
  | 5 => some (str "midjourney")
  | 6 => some (str "openai")
  | 7 => some (str "openai")
  | 8 => some (str "custom")
  | 9 => some (str "openai")
  | 10 => some (str "openai")
  | 11 => some (str "palm")
  | 12 => some (str "openai")
  | 13 => some (str "openai")
  | 14 => some (str "anthropic")
  | 15 => some (str "baidu")
  | 16 => some (str "zhipu")
  | 17 => some (str "ali")
  | 18 => some (str "xunfei")
  | 19 => some (str "360")
  | 20 => some (str "openrouter")
  | 21 => some (str "openai")
  | 22 => some (str "openai")
  | 23 => some (str "tencent")
  | 24 => some (str "gemini")
  | 25 => some (str "moonshot")
  | 26 => some (str "zhipu")
  | 27 => some (str "perplexity")
  | 31 => some (str "lingyiwanwu")
  | 33 => some (str "aws")
  | 34 => some (str "cohere")
  | 35 => some (str "minimax")
  | 36 => some (str "suno")
  | 37 => some (str "dify")
  | 38 => some (str "jina")
  | 39 => some (str "cloudflare")
  | 40 => some (str "siliconflow")
  | 41 => some (str "vertex")
  | 42 => some (str "mistral")
  | 43 => some (str "deepseek")
  | 44 => some (str "mokaai")
  | 45 => some (str "volcengine")
  | 46 => some (str "baidu")
  | 47 => some (str "xinference")
  | 48 => some (str "xai")
  | 49 => some (str "coze")
  | 50 => some (str "kling")
  | 51 => some (str "jimeng")
  | 52 => some (str "vidu")
  | 53 => some (str "submodel")
  | 54 => some (str "doubao")
  | 55 => some (str "openai")
  | 56 => some (str "replicate")
  | _ => none

/-- `MapChannelType` / `ChannelType.ToProviderType`: table lookup, with
`("custom", false)` for a kind absent from the table. -/
def MapChannelType (typeID : Int) : Str × Bool :=
  match channelTypeMapping typeID with
  | some providerType => (providerType, true)
  | none => (str "custom", false)

/-- `MapChannelStatus` / `ChannelStatus.ToEzAPIStatus`: `1 ↦ active`, every
other code (including unknown) collapses to `disabled`. -/
def MapChannelStatus (s : Int) : Str :=
  if s = 1 then str "active" else str "disabled"

/-- `MapTokenStatus` / `TokenStatus.ToEzAPIStatus`. -/
def MapTokenStatus (s : Int) : Str :=
  if s = 1 then str "active"
  else if s = 2 then str "disabled"
  else if s = 3 then str "expired"
  else if s = 4 then str "exhausted"
  else str "disabled"

/-- `MapUserStatus` / `UserStatus.ToEzAPIStatus`: `1 ↦ active`, everything
else `suspended`. -/
def MapUserStatus (s : Int) : Str :=
  if s = 1 then str "active" else str "suspended"

/-! ### Warning messages (the `fmt.Sprintf` calls in `exporter.go`) -/

/-- Shared head of every per-channel warning:
`"Channel '<name>' (ID=<id>) "`. -/
def chanWarnHead (name : Str) (id : Int) : Str :=
  str "Channel '" ++ name ++ str "' (ID=" ++ intToStr id ++ str ") "

/-- Warning for an unknown channel kind code. -/
def unknownTypeWarning (name : Str) (id typeID : Int) : Str :=
  chanWarnHead name id ++ (str "has unknown type " ++
    (intToStr typeID ++ str ", mapped to 'custom'"))

/-- Warning for a non-zero channel priority. -/
def priorityWarning (name : Str) (id p : Int) : Str :=
  chanWarnHead name id ++ (str "has priority=" ++
    (intToStr p ++ str " which is not supported in EZ-API"))

/-- Warning for a non-empty model mapping override. -/
def modelMappingWarning (name : Str) (id : Int) : Str :=
  chanWarnHead name id ++
    str "has model_mapping which is not migrated. Use EZ-API Binding instead."

/-- Warning for a non-empty status-code mapping override. -/
def statusCodeMappingWarning (name : Str) (id : Int) : Str :=
  chanWarnHead name id ++
    str "has status_code_mapping which is not supported in EZ-API"

/-- Warning for a non-empty settings blob. -/
def settingWarning (name : Str) (id : Int) : Str :=
  chanWarnHead name id ++ str "has custom settings which are not migrated"

/-- Warning for a non-empty parameter override blob. -/
def paramOverrideWarning (name : Str) (id : Int) : Str :=
  chanWarnHead name id ++ str "has param_override which is not supported in EZ-API"

/-- Warning for a non-empty header override blob. -/
def headerOverrideWarning (name : Str) (id : Int) : Str :=
  chanWarnHead name id ++ str "has header_override which is not supported in EZ-API"

/-- Warning for a channel that belongs to more than one group. -/
def multiGroupWarning (name : Str) (id : Int) (groups : List Str) : Str :=
  chanWarnHead name id ++ (str "belongs to multiple groups " ++
    (fmtStrList groups ++ (str ". Only '" ++ (groups.headD [] ++
      str "' is used as primary group. Consider creating Bindings for other groups."))))

/-- Warning for a failed per-user token sub-batch fetch. -/
def tokenFetchWarning (username : Str) (id : Int) (e : Str) : Str :=
  str "Failed to get tokens for user '" ++ username ++ str "' (ID=" ++
    intToStr id ++ str "): " ++ e

/-! ### Parsing helpers (`exporter.go`) -/

/-- `parseKeys`: `nil` for the empty field; otherwise split on newline, trim
each line, drop empties, and fall back to the whole raw field if nothing
survives. -/
def parseKeys (key : Str) : List Str :=
  if key = [] then []
  else
    let keys := ((splitOnChar '\n' key).map trimSpace).filter (fun l => decide (l ≠ []))
    if keys = [] then [key] else keys

/-- `parseGroups`: split on comma, trim, drop empties, defaulting to
`["default"]`. -/
def parseGroups (group : Str) : List Str :=
  if group = [] then [str "default"]
  else
    let groups := ((splitOnChar ',' group).map trimSpace).filter (fun l => decide (l ≠ []))
    if groups = [] then [str "default"] else groups

/-- `parseModels`: split on comma, trim, drop empties, no default. -/
def parseModels (models : Str) : List Str :=
  if models = [] then []
  else ((splitOnChar ',' models).map trimSpace).filter (fun l => decide (l ≠ []))

/-! ### Record conversions (`exporter.go`) -/

/-- `checkUnmappableFields`: the ordered list of warnings the exporter appends
for fields of `ch` that cannot be represented in the target schema. -/
def checkUnmappableFields (ch : Channel) : List Str :=
  (match ch.priority with
   | some p => if p ≠ 0 then [priorityWarning ch.name ch.id p] else []
   | none => []) ++
  (match ch.modelMapping with
   | some m => if m ≠ [] then [modelMappingWarning ch.name ch.id] else []
   | none => []) ++
  (match ch.statusCodeMapping with
   | some m => if m ≠ [] then [statusCodeMappingWarning ch.name ch.id] else []
   | none => []) ++
  (match ch.setting with
   | some s => if s ≠ [] then [settingWarning ch.name ch.id] else []
   | none => []) ++
  (match ch.paramOverride with
   | some s => if s ≠ [] then [paramOverrideWarning ch.name ch.id] else []
   | none => []) ++
  (match ch.headerOverride with
   | some s => if s ≠ [] then [headerOverrideWarning ch.name ch.id] else []
   | none => []) ++
  (if (parseGroups ch.group).length > 1
   then [multiGroupWarning ch.name ch.id (parseGroups ch.group)] else [])

/-- `channelToProviders`: one provider per parsed secret, together with the
warnings the call appends to the accumulator (the unknown-type warning first,
then the unmappable-field warnings, exactly in the order `exporter.go` emits
them).  The `json.Marshal` backup is modeled by the channel value. -/
def channelToProviders (ch : Channel) : List Provider × List Str :=
  let keys := parseKeys ch.key
  let isMultiKey : Bool := decide (keys.length > 1)
  let groups := parseGroups ch.group
  let primaryGroup := groups.headD []
  let (providerType, typeOK) := MapChannelType ch.type
  let typeWarnings :=
    if typeOK then [] else [unknownTypeWarning ch.name ch.id ch.type]
  let status := MapChannelStatus ch.status
  let baseURL := ch.baseURL.getD []
  let weight : Int :=
    if ch.weight.elim false (fun w => decide (w > 0)) then (ch.weight.getD 0 : Nat)
    else if ch.priority.elim false (fun p => decide (p > 0)) then ch.priority.getD 0
    else 1
  let priority : Int :=
    if ch.priority.elim false (fun p => decide (p > 0)) then ch.priority.getD 0 else 0
  let autoBan : Bool := ch.autoBan.elim true (fun a => decide (a = 1))
  let models := parseModels ch.models
  let original : Option Channel := some ch
  let warnings := typeWarnings ++ checkUnmappableFields ch
  let providers := keys.enum.map fun ik =>
    { originalID := ch.id
      name :=
        if isMultiKey && decide (ik.1 > 0)
        then ch.name ++ '-' :: natToStr (ik.1 + 1)
        else ch.name
      type := providerType
      baseURL := baseURL
      apiKey := ik.2
      models := models
      primaryGroup := primaryGroup
      allGroups := groups
      weight := weight
      priority := priority
      status := status
      autoBan := autoBan
      isMultiKey := isMultiKey
      multiKeyIndex := if isMultiKey then ik.1 + 1 else 0
      originalName := if isMultiKey then ch.name else []
      original := original : Provider }
  (providers, warnings)

/-- `userToMaster`. -/
def userToMaster (user : User) : Master :=
  { name := user.username
    group := user.group
    namespaces := [user.group]
    defaultNamespace := user.group
    maxChildKeys := 10
    globalQPS := 3
    status := MapUserStatus user.status
    sourceUserID := user.id
    sourceEmail := user.email }

/-- `tokenToKey`. -/
def tokenToKey (token : Token) (masterRef : Str) : Key :=
  { masterRef := masterRef
    originalToken := token.key
    group := token.group
    status := MapTokenStatus token.status
    scopes := [str "chat:*", str "completions:*"]
    namespaces := [token.group]
    modelLimitsEnabled := token.modelLimitsEnabled
    modelLimits :=
      if token.modelLimitsEnabled && decide (token.modelLimits ≠ [])
      then parseModels token.modelLimits else []
    expiresAt :=
      if token.expiredTime > 0 ∧ token.expiredTime ≠ -1
      then TimestampToTime token.expiredTime else none
    allowIPs :=
      match token.allowIPs with
      | some ips => if ips ≠ [] then (splitOnChar ',' ips).map trimSpace else []
      | none => []
    quotaLimit := if token.unlimitedQuota then none else some token.remainQuota
    quotaUsed := if token.unlimitedQuota then none else some token.usedQuota
    unlimitedQuota := token.unlimitedQuota
    originalID := token.id
    tokenPlaintextAvailable := true }

/-- `abilityToBinding`. -/
def abilityToBinding (ab : Ability) : Binding :=
  { namespace_ := ab.group
    routeGroup := ab.group
    model := ab.model
    status := if ab.enabled then str "active" else str "disabled" }

/-! ### The export pass (`exporter.go`), with the accumulator threaded
explicitly. -/

/-- Body of the channel loop in `exportChannels`: append the warnings the
conversion emits and then the resulting providers. -/
def processChannel (r : ExportResult) (ch : Channel) : ExportResult :=
  let pw := channelToProviders ch
  { r with warnings := r.warnings ++ pw.2, providers := r.providers ++ pw.1 }

/-- `exportChannels`. -/
def exportChannels (conn : Connector) (r : ExportResult) : Except Str ExportResult :=
  match conn.getAllChannels with
  | .error e => .error e
  | .ok channels => .ok (channels.foldl processChannel r)

/-- Body of the user loop in `exportUsersAndTokens`: emit the master, then
either warn and continue (token sub-batch fetch failed) or emit one key per
token.  (The Go code also records the user-id → master-name map, which is
write-only and does not affect the result.) -/
def processUser (conn : Connector) (r : ExportResult) (user : User) : ExportResult :=
  let master := userToMaster user
  let r := addMaster r master
  match conn.getTokensByUserID user.id with
  | .error e => addWarning r (tokenFetchWarning user.username user.id e)
  | .ok tokens => tokens.foldl (fun r t => addKey r (tokenToKey t master.name)) r

/-- `exportUsersAndTokens`. -/
def exportUsersAndTokens (conn : Connector) (r : ExportResult) :
    Except Str ExportResult :=
  match conn.getUsersWithTokens with
  | .error e => .error (wrapErr (str "failed to get users") e)
  | .ok users => .ok (users.foldl (processUser conn) r)

/-- `exportAbilities`. -/
def exportAbilities (conn : Connector) (r : ExportResult) : Except Str ExportResult :=
  match conn.getAllAbilities with
  | .error e => .error e
  | .ok abilities => .ok (abilities.foldl (fun r ab => addBinding r (abilityToBinding ab)) r)

/-- `Export`: the whole pass.  `now` is the `time.Now()` observed when the
exporter was created. -/
def Export (conn : Connector) (config : ExporterConfig) (now : Int) :
    Except Str ExportResult :=
  match exportChannels conn (NewExportResult now) with
  | .error e => .error (wrapErr (str "failed to export channels") e)
  | .ok r1 =>
    match (if config.includeTokens then exportUsersAndTokens conn r1 else .ok r1) with
    | .error e => .error (wrapErr (str "failed to export users/tokens") e)
    | .ok r2 =>
      match (if config.includeAbilities then exportAbilities conn r2 else .ok r2) with
      | .error e => .error (wrapErr (str "failed to export abilities") e)
      | .ok r3 => .ok r3

/-! ### Spec-side characterizations used by the claim statements -/

/-- Spec wording for the derived weight: "use the channel's weight field if
present and > 0; else fall back to priority if present and > 0; else default
to 1". -/
def weightFromSpec (ch : Channel) : Int :=
  match ch.weight with
  | some w =>
    if w > 0 then (w : Int)
    else match ch.priority with
         | some p => if p > 0 then p else 1
         | none => 1
  | none =>
    match ch.priority with
    | some p => if p > 0 then p else 1
    | none => 1

/-- Spec wording for the derived priority: "the channel's priority field if
present and > 0, else 0". -/
def priorityFromSpec (ch : Channel) : Int :=
  match ch.priority with
  | some p => if p > 0 then p else 0
  | none => 0

/-- Keys contributed by one user in Phase B: one per token of a successful
sub-batch fetch, none if the sub-batch fetch fails. -/
def userKeys (conn : Connector) (u : User) : List Key :=
  match conn.getTokensByUserID u.id with
  | .ok tokens => tokens.map (fun t => tokenToKey t (userToMaster u).name)
  | .error _ => []

/-- Warnings contributed by one user in Phase B: exactly the token-fetch
warning if the sub-batch fetch fails, none otherwise. -/
def userWarnings (conn : Connector) (u : User) : List Str :=
  match conn.getTokensByUserID u.id with
  | .ok _ => []
  | .error e => [tokenFetchWarning u.username u.id e]

/-- Overwrite the export timestamp (the only field the claim C9 excludes). -/
def setTs (r : ExportResult) (t : Int) : ExportResult :=
  { r with exportedAt := t }

/-! ### Helper lemmas about the parsing primitives -/

theorem splitOnChar_ne_nil (sep : Char) (s : Str) : splitOnChar sep s ≠ [] := by
  cases s with
  | nil => simp [splitOnChar]
  | cons c rest =>
    simp only [splitOnChar]
    cases h : splitOnChar sep rest with
    | nil => simp
    | cons t ts =>
      by_cases hc : c = sep <;> simp [hc]

/-- Concatenating the segments of a split recovers the source with the
separator characters removed. -/
theorem splitOnChar_flatten (sep : Char) (s : Str) :
    (splitOnChar sep s).flatten = s.filter (fun c => decide (c ≠ sep)) := by
  induction s with
  | nil => simp [splitOnChar]
  | cons c rest ih =>
    simp only [splitOnChar]
    cases h : splitOnChar sep rest with
    | nil => exact absurd h (splitOnChar_ne_nil sep rest)
    | cons t ts =>
      rw [h] at ih
      simp only [List.flatten_cons] at ih
      by_cases hc : c = sep
      · subst hc
        simp [List.filter_cons, ih]
      · simp [List.filter_cons, hc, ih]

/-- Every character of a split segment is a character of the source string. -/
theorem mem_of_mem_splitOnChar {sep : Char} {s l : Str} {c : Char}
    (hl : l ∈ splitOnChar sep s) (hc : c ∈ l) : c ∈ s := by
  have hflat : c ∈ (splitOnChar sep s).flatten := List.mem_flatten.mpr ⟨l, hl, hc⟩
  rw [splitOnChar_flatten] at hflat
  exact List.mem_of_mem_filter hflat

/-- Trimming a string of White_Space characters leaves nothing. -/
theorem trimSpace_eq_nil_of_all_space {s : Str} (h : ∀ c ∈ s, isSpace c) :
    trimSpace s = [] := by
  unfold trimSpace
  rw [List.dropWhile_eq_nil_iff.mpr h]
  simp

/-- `parseKeys` on a non-empty all-whitespace field falls back to the single
raw untrimmed field. -/
theorem parseKeys_of_all_space {key : Str} (h0 : key ≠ [])
    (h : ∀ c ∈ key, isSpace c) : parseKeys key = [key] := by
  have hfilter :
      ((splitOnChar '\n' key).map trimSpace).filter (fun l => decide (l ≠ [])) = [] := by
    rw [List.filter_eq_nil_iff]
    intro a ha
    rcases List.mem_map.mp ha with ⟨l, hl, rfl⟩
    have ht : trimSpace l = [] :=
      trimSpace_eq_nil_of_all_space (fun c hc => h c (mem_of_mem_splitOnChar hl hc))
    simp [ht]
  simp only [parseKeys]
  rw [if_neg h0, hfilter]
  rfl

/-! ### Helper lemmas about the export pass -/

theorem foldl_addKey (n : Str) (tokens : List Token) (r : ExportResult) :
    tokens.foldl (fun r t => addKey r (tokenToKey t n)) r =
      { r with keys := r.keys ++ tokens.map (fun t => tokenToKey t n) } := by
  induction tokens generalizing r with
  | nil => simp
  | cons t ts ih =>
    rw [List.foldl_cons, ih]
    simp [addKey]

theorem processUser_eq (conn : Connector) (r : ExportResult) (u : User) :
    processUser conn r u =
      { r with masters := r.masters ++ [userToMaster u],
               keys := r.keys ++ userKeys conn u,
               warnings := r.warnings ++ userWarnings conn u } := by
  unfold processUser userKeys userWarnings
  cases h : conn.getTokensByUserID u.id with
  | error e => simp [addMaster, addWarning]
  | ok tokens => simp [foldl_addKey, addMaster]

theorem foldl_processUser (conn : Connector) (users : List User) (r : ExportResult) :
    users.foldl (processUser conn) r =
      { r with masters := r.masters ++ users.map userToMaster,
               keys := r.keys ++ users.flatMap (userKeys conn),
               warnings := r.warnings ++ users.flatMap (userWarnings conn) } := by
  induction users generalizing r with
  | nil => simp
  | cons u us ih =>
    rw [List.foldl_cons, processUser_eq, ih]
    simp

theorem processChannel_setTs (r : ExportResult) (t : Int) (ch : Channel) :
    processChannel (setTs r t) ch = setTs (processChannel r ch) t := rfl

theorem foldl_processChannel_setTs (channels : List Channel) (r : ExportResult) (t : Int) :
    channels.foldl processChannel (setTs r t) =
      setTs (channels.foldl processChannel r) t := by
  induction channels generalizing r with
  | nil => rfl
  | cons ch chs ih => rw [List.foldl_cons, List.foldl_cons, processChannel_setTs, ih]

theorem processUser_setTs (conn : Connector) (r : ExportResult) (t : Int) (u : User) :
    processUser conn (setTs r t) u = setTs (processUser conn r u) t := by
  rw [processUser_eq, processUser_eq]; rfl

theorem foldl_processUser_setTs (conn : Connector) (users : List User)
    (r : ExportResult) (t : Int) :
    users.foldl (processUser conn) (setTs r t) =
      setTs (users.foldl (processUser conn) r) t := by
  induction users generalizing r with
  | nil => rfl
  | cons u us ih => rw [List.foldl_cons, List.foldl_cons, processUser_setTs, ih]

theorem foldl_addBinding_setTs (abilities : List Ability) (r : ExportResult) (t : Int) :
    abilities.foldl (fun r ab => addBinding r (abilityToBinding ab)) (setTs r t) =
      setTs (abilities.foldl (fun r ab => addBinding r (abilityToBinding ab)) r) t := by
  induction abilities generalizing r with
  | nil => rfl
  | cons ab abs ih =>
    rw [List.foldl_cons, List.foldl_cons]
    have hstep : addBinding (setTs r t) (abilityToBinding ab) =
        setTs (addBinding r (abilityToBinding ab)) t := rfl
    rw [hstep]
    exact ih _

theorem exportChannels_setTs (conn : Connector) (r : ExportResult) (t : Int) :
    exportChannels conn (setTs r t) = (exportChannels conn r).map (setTs · t) := by
  unfold exportChannels
  cases conn.getAllChannels with
  | error e => rfl
  | ok channels => simp [Except.map, foldl_processChannel_setTs]

theorem exportUsersAndTokens_setTs (conn : Connector) (r : ExportResult) (t : Int) :
    exportUsersAndTokens conn (setTs r t) =
      (exportUsersAndTokens conn r).map (setTs · t) := by
  unfold exportUsersAndTokens
  cases conn.getUsersWithTokens with
  | error e => rfl
  | ok users => simp [Except.map, foldl_processUser_setTs]

theorem exportAbilities_setTs (conn : Connector) (r : ExportResult) (t : Int) :
    exportAbilities conn (setTs r t) = (exportAbilities conn r).map (setTs · t) := by
  unfold exportAbilities
  cases conn.getAllAbilities with
  | error e => rfl
  | ok abilities => simp [Except.map, foldl_addBinding_setTs]

/-- The whole pass only uses the creation timestamp as an inert field: running
with timestamp `t` is running with timestamp `0` and then overwriting the
field. -/
theorem Export_setTs (conn : Connector) (config : ExporterConfig) (t : Int) :
    Export conn config t = (Export conn config 0).map (setTs · t) := by
  unfold Export
  have h0 : NewExportResult t = setTs (NewExportResult 0) t := rfl
  rw [h0, exportChannels_setTs]
  cases hc : exportChannels conn (NewExportResult 0) with
  | error e => rfl
  | ok r1 =>
    simp only [Except.map]
    have h1 :
        (if config.includeTokens then exportUsersAndTokens conn (setTs r1 t)
          else .ok (setTs r1 t)) =
        (if config.includeTokens then exportUsersAndTokens conn r1
          else .ok r1).map (setTs · t) := by
      cases config.includeTokens with
      | false => rfl
      | true => simp [exportUsersAndTokens_setTs]
    rw [h1]
    cases hu : (if config.includeTokens then exportUsersAndTokens conn r1 else .ok r1) with
    | error e => rfl
    | ok r2 =>
      simp only [Except.map]
      have h2 :
          (if config.includeAbilities then exportAbilities conn (setTs r2 t)
            else .ok (setTs r2 t)) =
          (if config.includeAbilities then exportAbilities conn r2
            else .ok r2).map (setTs · t) := by
        cases config.includeAbilities with
        | false => rfl
        | true => simp [exportAbilities_setTs]
      rw [h2]
      cases ha : (if config.includeAbilities then exportAbilities conn r2 else .ok r2) with
      | error e => rfl
      | ok r3 => rfl

/-! ### Helper lemmas about the warning strings -/

/-- Two warnings that share the channel head but whose tails differ at some
position are different strings. -/
theorem chanWarn_ne_of_get (name : Str) (id : Int) (s t : Str) (n : Nat)
    (h : s.get? n ≠ t.get? n) :
    chanWarnHead name id ++ s ≠ chanWarnHead name id ++ t := by
  intro he
  exact h (by rw [List.append_cancel_left he])

/-- The unknown-type warning never occurs among the unmappable-field
warnings of the same channel. -/
theorem unknownTypeWarning_not_mem_checkUnmappable (ch : Channel) :
    unknownTypeWarning ch.name ch.id ch.type ∉ checkUnmappableFields ch := by
  intro hmem
  unfold checkUnmappableFields at hmem
  simp only [List.mem_append] at hmem
  rcases hmem with ((((((h|h)|h)|h)|h)|h)|h)
  · rcases hp : ch.priority with _ | p <;> rw [hp] at h <;> simp at h
    refine absurd h.2 (chanWarn_ne_of_get ch.name ch.id _ _ 4 ?_)
    exact (by decide : (some 'u' : Option Char) ≠ some 'p')
  · rcases hp : ch.modelMapping with _ | m <;> rw [hp] at h <;> simp at h
    refine absurd h.2 (chanWarn_ne_of_get ch.name ch.id _ _ 4 ?_)
    exact (by decide : (some 'u' : Option Char) ≠ some 'm')
  · rcases hp : ch.statusCodeMapping with _ | m <;> rw [hp] at h <;> simp at h
    refine absurd h.2 (chanWarn_ne_of_get ch.name ch.id _ _ 4 ?_)
    exact (by decide : (some 'u' : Option Char) ≠ some 's')
  · rcases hp : ch.setting with _ | s <;> rw [hp] at h <;> simp at h
    refine absurd h.2 (chanWarn_ne_of_get ch.name ch.id _ _ 4 ?_)
    exact (by decide : (some 'u' : Option Char) ≠ some 'c')
  · rcases hp : ch.paramOverride with _ | s <;> rw [hp] at h <;> simp at h
    refine absurd h.2 (chanWarn_ne_of_get ch.name ch.id _ _ 4 ?_)
    exact (by decide : (some 'u' : Option Char) ≠ some 'p')
  · rcases hp : ch.headerOverride with _ | s <;> rw [hp] at h <;> simp at h
    refine absurd h.2 (chanWarn_ne_of_get ch.name ch.id _ _ 4 ?_)
    exact (by decide : (some 'u' : Option Char) ≠ some 'h')
  · split at h <;> simp at h
    refine absurd h (chanWarn_ne_of_get ch.name ch.id _ _ 0 ?_)
    exact (by decide : (some 'h' : Option Char) ≠ some 'b')

/-! ### Concrete fixtures for witnesses and counterexamples -/

/-- A minimal channel template; individual tests override single fields. -/
def baseChannel : Channel :=
  { id := 1
    type := 1
    key := str "sk-a"
    status := 1
    name := str "acme"
    weight := none
    baseURL := none
    models := []
    group := []
    modelMapping := none
    statusCodeMapping := none
    priority := none
    autoBan := none
    setting := none
    paramOverride := none
    headerOverride := none }

/-- Channel whose credential field is the empty string. -/
def emptyKeyChannel : Channel := { baseChannel with id := 7, key := [] }

/-- Channel whose credential field is non-empty but all whitespace. -/
def blankKeyChannel : Channel := { baseChannel with id := 8, key := str " \n " }

/-- Channel with two newline-separated secrets. -/
def twoKeyChannel : Channel := { baseChannel with id := 9, key := str "sk-a\nsk-b" }

/-- Channel with the unknown kind code 999. -/
def unknownTypeChannel : Channel := { baseChannel with id := 10, type := 999 }

/-! ### Claim C1 -/

/-- Claim C1, counterexample: the claim demands exactly one Provider for a
channel whose credential field is the empty string, but `parseKeys` returns
the empty key list for `""` before the whole-field fallback can fire, so
`channelToProviders` emits no Provider at all. -/
theorem blank_credential_claim_cex :
    emptyKeyChannel.key = [] ∧
    (channelToProviders emptyKeyChannel).1 = [] ∧
    ¬(channelToProviders emptyKeyChannel).1.length = 1 := by
  refine ⟨rfl, ?_, ?_⟩ <;> decide

/-- Claim C1 (amended): a channel whose credential field is non-empty but
consists only of whitespace/newlines yields exactly one Provider whose
`api_key` is the raw original (untrimmed) credential field; a channel whose
credential field is the empty string yields no Provider at all. -/
theorem providers_of_blank_credential (ch : Channel) :
    (ch.key = [] → (channelToProviders ch).1 = []) ∧
    (ch.key ≠ [] → (∀ c ∈ ch.key, isSpace c) →
      (channelToProviders ch).1.map Provider.apiKey = [ch.key] ∧
      (channelToProviders ch).1.length = 1) := by
  constructor
  · intro h0
    simp [channelToProviders, parseKeys, h0]
  · intro h0 hsp
    have hk : parseKeys ch.key = [ch.key] := parseKeys_of_all_space h0 hsp
    simp [channelToProviders, hk, List.enum, List.enumFrom]

/-- Claim C1, witness: the amended statement at the all-whitespace channel. -/
theorem providers_of_blank_credential_witness :
    (channelToProviders blankKeyChannel).1.map Provider.apiKey = [blankKeyChannel.key] ∧
    (channelToProviders blankKeyChannel).1.length = 1 :=
  (providers_of_blank_credential blankKeyChannel).2 (by decide) (by decide)

/-! ### Claim C2 -/

/-- Claim C2: a channel whose credential field parses into k ≥ 1 non-empty
segments yields exactly k Providers, in segment order (the Provider at
0-based position i carries the i-th secret); position 0 keeps the bare
channel name, and when k > 1 every position i > 0 is named with the suffix
`-{i+1}`, i.e. `-{index}` for the 1-based index. -/
theorem providers_per_secret (ch : Channel)
    (_hk : 1 ≤ (parseKeys ch.key).length) :
    (channelToProviders ch).1.length = (parseKeys ch.key).length ∧
    ∀ i (hp : i < (channelToProviders ch).1.length)
      (hq : i < (parseKeys ch.key).length),
      ((channelToProviders ch).1.get ⟨i, hp⟩).apiKey = (parseKeys ch.key).get ⟨i, hq⟩ ∧
      ((channelToProviders ch).1.get ⟨i, hp⟩).name =
        (if 1 < (parseKeys ch.key).length ∧ 0 < i
         then ch.name ++ '-' :: natToStr (i + 1)
         else ch.name) := by
  rcases hMT : MapChannelType ch.type with ⟨pt, tok⟩
  constructor
  · simp [channelToProviders, hMT]
  · intro i hp hq
    simp only [channelToProviders, hMT, List.get_eq_getElem, List.getElem_map,
      List.getElem_enum]
    constructor
    · trivial
    · by_cases h1 : 1 < (parseKeys ch.key).length <;> by_cases h2 : 0 < i <;>
        simp [h1, h2]

/-- Claim C2, witness: the two-secret channel yields two Providers named
`acme` and `acme-2` carrying `sk-a` and `sk-b`. -/
theorem providers_per_secret_witness :
    (channelToProviders twoKeyChannel).1.length = (parseKeys twoKeyChannel.key).length ∧
    ((channelToProviders twoKeyChannel).1.get
        ⟨1, by decide⟩).apiKey = (parseKeys twoKeyChannel.key).get ⟨1, by decide⟩ ∧
    ((channelToProviders twoKeyChannel).1.get
        ⟨1, by decide⟩).name = twoKeyChannel.name ++ '-' :: natToStr 2 := by
  have h := providers_per_secret twoKeyChannel (by decide)
  refine ⟨h.1, (h.2 1 (by decide) (by decide)).1, ?_⟩
  have hn := (h.2 1 (by decide) (by decide)).2
  rw [hn]
  decide

/-! ### Claim C10 -/

/-- Claim C10: for a channel with more than one secret, the first emitted
Provider — the one keeping the bare channel name — also carries the
multi-key bookkeeping: `is_multi_key` true, `multi_key_index` 1, and
`original_name` equal to the channel name. -/
theorem first_provider_multikey_fields (ch : Channel)
    (hk : 1 < (parseKeys ch.key).length) :
    ∃ p, (channelToProviders ch).1.head? = some p ∧
      p.name = ch.name ∧ p.isMultiKey = true ∧ p.multiKeyIndex = 1 ∧
      p.originalName = ch.name := by
  rcases hMT : MapChannelType ch.type with ⟨pt, tok⟩
  rcases hks : parseKeys ch.key with _ | ⟨k0, krest⟩
  · rw [hks] at hk; simp at hk
  · rw [hks] at hk
    have h1 : 0 < krest.length := by simpa using hk
    have h2 : krest ≠ [] := List.length_pos.mp h1
    simp only [channelToProviders, hMT, hks, List.enum, List.enumFrom, List.map_cons,
      List.head?_cons]
    refine ⟨_, rfl, ?_, ?_, ?_, ?_⟩
    · simp
    · simp [h1]
    · simp [h2]
    · simp [h2]

/-- Claim C10, witness: the first Provider of the two-secret channel. -/
theorem first_provider_multikey_fields_witness :
    ∃ p, (channelToProviders twoKeyChannel).1.head? = some p ∧
      p.name = twoKeyChannel.name ∧ p.isMultiKey = true ∧ p.multiKeyIndex = 1 ∧
      p.originalName = twoKeyChannel.name :=
  first_provider_multikey_fields twoKeyChannel (by decide)

/-! ### Claim C7 -/

/-- Claim C7: every Provider emitted for a channel has `is_multi_key` true
iff the channel's credential field yielded more than one secret;
`multi_key_index` carries a 1-based value (≥ 1) whenever `is_multi_key` is
true; and when `is_multi_key` is false (the single-secret case) both
`multi_key_index` and `original_name` stay at their zero values. -/
theorem multikey_invariant (ch : Channel) (p : Provider)
    (hp : p ∈ (channelToProviders ch).1) :
    (p.isMultiKey = true ↔ 1 < (parseKeys ch.key).length) ∧
    (p.isMultiKey = true → 1 ≤ p.multiKeyIndex) ∧
    (p.isMultiKey = false → p.multiKeyIndex = 0 ∧ p.originalName = []) := by
  rcases hMT : MapChannelType ch.type with ⟨pt, tok⟩
  simp only [channelToProviders, hMT] at hp
  rcases List.mem_map.mp hp with ⟨ik, hik, rfl⟩
  refine ⟨by simp, ?_, ?_⟩
  · intro h
    simp only at h ⊢
    simp [h]
  · intro h
    simp only at h ⊢
    simp [h]

/-- Claim C7, witness: the invariant at the first Provider of the two-secret
channel. -/
theorem multikey_invariant_witness :
    ((((channelToProviders twoKeyChannel).1.get ⟨0, by decide⟩).isMultiKey = true ↔
        1 < (parseKeys twoKeyChannel.key).length) ∧
      (((channelToProviders twoKeyChannel).1.get ⟨0, by decide⟩).isMultiKey = true →
        1 ≤ ((channelToProviders twoKeyChannel).1.get ⟨0, by decide⟩).multiKeyIndex) ∧
      (((channelToProviders twoKeyChannel).1.get ⟨0, by decide⟩).isMultiKey = false →
        ((channelToProviders twoKeyChannel).1.get ⟨0, by decide⟩).multiKeyIndex = 0 ∧
        ((channelToProviders twoKeyChannel).1.get ⟨0, by decide⟩).originalName = [])) :=
  multikey_invariant twoKeyChannel _ (List.get_mem _ _ _)

/-! ### Claim C8 -/

/-- Claim C8: every emitted Provider's weight is the channel's weight field
when present and positive, else the priority field when present and
positive, else 1; independently, its priority is the priority field when
present and positive, else 0. -/
theorem weight_priority_derivation (ch : Channel) (p : Provider)
    (hp : p ∈ (channelToProviders ch).1) :
    p.weight = weightFromSpec ch ∧ p.priority = priorityFromSpec ch := by
  rcases hMT : MapChannelType ch.type with ⟨pt, tok⟩
  simp only [channelToProviders, hMT] at hp
  rcases List.mem_map.mp hp with ⟨ik, hik, rfl⟩
  constructor
  · simp only [weightFromSpec]
    rcases ch.weight with _ | w <;> rcases hpr : ch.priority with _ | pr <;>
      simp [Option.elim, hpr]
  · simp only [priorityFromSpec]
    rcases hpr : ch.priority with _ | pr <;> simp [Option.elim, hpr]

/-- Claim C8, witness: the derivation at the first Provider of a channel
with weight 0 and priority 4 (weight falls back to priority; priority kept). -/
theorem weight_priority_derivation_witness :
    (((channelToProviders { baseChannel with weight := some 0, priority := some 4
        }).1.get ⟨0, by decide⟩).weight =
      weightFromSpec { baseChannel with weight := some 0, priority := some 4 }) ∧
    (((channelToProviders { baseChannel with weight := some 0, priority := some 4
        }).1.get ⟨0, by decide⟩).priority =
      priorityFromSpec { baseChannel with weight := some 0, priority := some 4 }) :=
  weight_priority_derivation _ _ (List.get_mem _ _ _)

/-! ### Claim C4 -/

/-- Concrete token template for the token-level witnesses. -/
def baseToken : Token :=
  { id := 4
    userID := 2
    key := str "tok-secret"
    status := 1
    expiredTime := -1
    remainQuota := 7
    unlimitedQuota := false
    modelLimitsEnabled := false
    modelLimits := []
    allowIPs := none
    usedQuota := 3
    group := str "g" }

/-- Claim C4: the emitted Key's `quota_limit` and `quota_used` are populated
(from the token's remaining/used counters, value-preserving as signed 64-bit
integers) exactly when `unlimited_quota` is false, and are both unset when it
is true. -/
theorem quota_iff_not_unlimited (t : Token) (m : Str) :
    ((tokenToKey t m).quotaLimit = if t.unlimitedQuota then none else some t.remainQuota) ∧
    ((tokenToKey t m).quotaUsed = if t.unlimitedQuota then none else some t.usedQuota) ∧
    (((tokenToKey t m).quotaLimit ≠ none ∧ (tokenToKey t m).quotaUsed ≠ none) ↔
      t.unlimitedQuota = false) := by
  cases h : t.unlimitedQuota <;> simp [tokenToKey, h]

/-! ### Claim C5 -/

/-- Claim C5: a token whose `expired_time` is `-1` or `0` yields a Key with
no expiry; a token with a positive `expired_time` yields a Key whose
`expires_at` is the instant at that epoch second. -/
theorem expiry_from_epoch (t : Token) (m : Str) :
    (t.expiredTime = -1 ∨ t.expiredTime = 0 → (tokenToKey t m).expiresAt = none) ∧
    (0 < t.expiredTime → (tokenToKey t m).expiresAt = some (timeUnix t.expiredTime)) := by
  constructor
  · rintro (h | h) <;> simp [tokenToKey, h]
  · intro h
    have hne : t.expiredTime ≠ -1 := by omega
    have h0 : t.expiredTime ≠ 0 := by omega
    simp [tokenToKey, TimestampToTime, h, hne, h0]

/-- Claim C5, witness: a never-expiring token and a token expiring at epoch
second 5. -/
theorem expiry_from_epoch_witness :
    (tokenToKey baseToken (str "bob")).expiresAt = none ∧
    (tokenToKey { baseToken with expiredTime := 5 } (str "bob")).expiresAt =
      some (timeUnix 5) :=
  ⟨(expiry_from_epoch baseToken (str "bob")).1 (Or.inl rfl),
   (expiry_from_epoch { baseToken with expiredTime := 5 } (str "bob")).2 (by decide)⟩

/-! ### Claim C6 -/

/-- Claim C6: the channel-kind mapper is total with an explicit sentinel — a
kind code absent from the fixed table maps to `("custom", false)` rather
than failing — and for a channel with such a kind the engine appends exactly
one warning naming the channel (by name and id) and the offending numeric
code, while still emitting every Provider with type `"custom"`. -/
theorem unknown_kind_fallback (ch : Channel)
    (h : channelTypeMapping ch.type = none) :
    MapChannelType ch.type = (str "custom", false) ∧
    (channelToProviders ch).2.count (unknownTypeWarning ch.name ch.id ch.type) = 1 ∧
    (∀ p ∈ (channelToProviders ch).1, p.type = str "custom") := by
  have hMT : MapChannelType ch.type = (str "custom", false) := by
    unfold MapChannelType
    rw [h]
  refine ⟨hMT, ?_, ?_⟩
  · have h0 : (checkUnmappableFields ch).count
        (unknownTypeWarning ch.name ch.id ch.type) = 0 :=
      List.count_eq_zero.mpr (unknownTypeWarning_not_mem_checkUnmappable ch)
    simp only [channelToProviders, hMT]
    simp [List.count_cons, h0]
  · intro p hp
    simp only [channelToProviders, hMT] at hp
    rcases List.mem_map.mp hp with ⟨ik, hik, rfl⟩
    rfl

/-- Claim C6, witness: the channel with unknown kind code 999. -/
theorem unknown_kind_fallback_witness :
    MapChannelType unknownTypeChannel.type = (str "custom", false) ∧
    (channelToProviders unknownTypeChannel).2.count
      (unknownTypeWarning unknownTypeChannel.name unknownTypeChannel.id
        unknownTypeChannel.type) = 1 ∧
    (∀ p ∈ (channelToProviders unknownTypeChannel).1, p.type = str "custom") :=
  unknown_kind_fallback unknownTypeChannel rfl

/-! ### Claim C3 -/

/-- Fixture users for the Phase B witnesses. -/
def aliceUser : User :=
  { id := 1, username := str "alice", status := 1, email := [], group := str "default" }

/-- Second fixture user. -/
def bobUser : User :=
  { id := 2, username := str "bob", status := 1, email := [], group := str "default" }

/-- Connector whose primary channel fetch fails. -/
def connChannelsFail : Connector :=
  { getAllChannels := .error (str "boom")
    getUsersWithTokens := .ok []
    getTokensByUserID := fun _ => .ok []
    getAllAbilities := .ok [] }

/-- Connector whose primary user fetch fails. -/
def connUsersFail : Connector :=
  { getAllChannels := .ok []
    getUsersWithTokens := .error (str "down")
    getTokensByUserID := fun _ => .ok []
    getAllAbilities := .ok [] }

/-- Connector whose primary ability fetch fails. -/
def connAbilitiesFail : Connector :=
  { getAllChannels := .ok []
    getUsersWithTokens := .ok []
    getTokensByUserID := fun _ => .ok []
    getAllAbilities := .error (str "gone") }

/-- Connector where the token sub-batch fetch fails for alice (user 1) but
succeeds for bob (user 2). -/
def connTokenSubFail : Connector :=
  { getAllChannels := .ok []
    getUsersWithTokens := .ok [aliceUser, bobUser]
    getTokensByUserID := fun uid =>
      if uid = 1 then .error (str "locked") else .ok [{ baseToken with userID := 2 }]
    getAllAbilities := .ok [] }

/-- Claim C3: a primary batch-fetch failure in any phase (channels in Phase
A, users in Phase B, abilities in Phase C) aborts the whole pass with a
wrapped error identifying the phase and no result; whereas Phase B processes
users in order so that every user yields its master, a user whose token
sub-batch fetch fails contributes exactly the warning naming that user and
the error (and no keys), and all masters/keys/warnings already accumulated
are preserved. -/
theorem export_failure_semantics (conn : Connector) (config : ExporterConfig)
    (now : Int) :
    (∀ e, conn.getAllChannels = .error e →
      Export conn config now = .error (wrapErr (str "failed to export channels") e)) ∧
    (∀ chs e, conn.getAllChannels = .ok chs → config.includeTokens = true →
      conn.getUsersWithTokens = .error e →
      Export conn config now =
        .error (wrapErr (str "failed to export users/tokens")
          (wrapErr (str "failed to get users") e))) ∧
    (∀ chs e, conn.getAllChannels = .ok chs →
      (config.includeTokens = true → ∃ users, conn.getUsersWithTokens = .ok users) →
      config.includeAbilities = true → conn.getAllAbilities = .error e →
      Export conn config now = .error (wrapErr (str "failed to export abilities") e)) ∧
    (∀ users r, conn.getUsersWithTokens = .ok users →
      exportUsersAndTokens conn r = .ok
        { r with masters := r.masters ++ users.map userToMaster,
                 keys := r.keys ++ users.flatMap (userKeys conn),
                 warnings := r.warnings ++ users.flatMap (userWarnings conn) }) := by
  refine ⟨?_, ?_, ?_, ?_⟩
  · intro e he
    simp [Export, exportChannels, he]
  · intro chs e hc ht hu
    simp [Export, exportChannels, exportUsersAndTokens, hc, ht, hu]
  · intro chs e hc husers hab habil
    cases hit : config.includeTokens with
    | false =>
      simp [Export, exportChannels, exportAbilities, hc, hit, hab, habil]
    | true =>
      obtain ⟨users, hus⟩ := husers hit
      simp [Export, exportChannels, exportUsersAndTokens, exportAbilities,
        hc, hit, hab, habil, hus]
  · intro users r hu
    unfold exportUsersAndTokens
    rw [hu]
    show Except.ok (users.foldl (processUser conn) r) = _
    rw [foldl_processUser]

/-- Claim C3, witness: the three phase-level failures and the per-user
token sub-batch failure on concrete connectors. -/
theorem export_failure_semantics_witness :
    Export connChannelsFail DefaultExporterConfig 0 =
      .error (wrapErr (str "failed to export channels") (str "boom")) ∧
    Export connUsersFail DefaultExporterConfig 0 =
      .error (wrapErr (str "failed to export users/tokens")
        (wrapErr (str "failed to get users") (str "down"))) ∧
    Export connAbilitiesFail { DefaultExporterConfig with includeAbilities := true } 0 =
      .error (wrapErr (str "failed to export abilities") (str "gone")) ∧
    exportUsersAndTokens connTokenSubFail (NewExportResult 0) = .ok
      { NewExportResult 0 with
          masters := (NewExportResult 0).masters ++
            [aliceUser, bobUser].map userToMaster,
          keys := (NewExportResult 0).keys ++
            [aliceUser, bobUser].flatMap (userKeys connTokenSubFail),
          warnings := (NewExportResult 0).warnings ++
            [aliceUser, bobUser].flatMap (userWarnings connTokenSubFail) } :=
  ⟨(export_failure_semantics connChannelsFail DefaultExporterConfig 0).1 _ rfl,
   (export_failure_semantics connUsersFail DefaultExporterConfig 0).2.1 [] _ rfl rfl rfl,
   (export_failure_semantics connAbilitiesFail
      { DefaultExporterConfig with includeAbilities := true } 0).2.2.1 [] _ rfl
      (fun _ => ⟨[], rfl⟩) rfl rfl,
   (export_failure_semantics connTokenSubFail DefaultExporterConfig 0).2.2.2
      [aliceUser, bobUser] (NewExportResult 0) rfl⟩

/-! ### Claim C9 -/

/-- Claim C9: the export is deterministic up to the timestamp — against a
fixed source snapshot (connector) and configuration, two runs produce
results that agree on every field once the `source.exported_at` timestamp is
overwritten (and a failing run fails identically); the JSON serialization is
a pure function of the result, so the serialized artifacts can differ only
in the `source.exported_at` field. -/
theorem export_deterministic (conn : Connector) (config : ExporterConfig)
    (t1 t2 : Int) :
    (Export conn config t1).map (setTs · 0) = (Export conn config t2).map (setTs · 0) := by
  rw [Export_setTs conn config t1, Export_setTs conn config t2]
  cases Export conn config 0 with
  | error e => rfl
  | ok r => rfl

end Exporter
